import Mathlib

/-!
Verification development for the chat gateway backend (src/backend/main.py).

The embedding is a shallow one: the FastAPI handlers become pure Lean
functions over explicit state (the in-memory `chat_history` list), the
external collaborators (`query_endpoint`, `submit_feedback`) become function
parameters, and raised `HTTPException`s become `Except.error` values carrying
the status code and detail string. Calls made to `submit_feedback` are
recorded in an explicit call log so that absence of an external call is
provable.
-/

/-- A message dict as exchanged with the model serving endpoint
(keys `role` and `content`). A missing or `None` content key is modelled as
the empty string, which is falsy in Python exactly like the empty string, so
the truthiness test `msg.get("content")` is the test `content ≠ ""`. -/
structure Msg where
  role : String
  content : String
deriving DecidableEq, Repr

/-- Pydantic model `ChatMessage` (main.py lines 53-55): request body of
POST /api/chat, with a required `message` and an optional `timestamp`. -/
structure ChatMessage where
  message : String
  timestamp : Option String
deriving DecidableEq, Repr

/-- Pydantic model `ChatResponse` (main.py lines 57-60). -/
structure ChatResponse where
  message : String
  timestamp : String
  request_id : Option String
deriving DecidableEq, Repr

/-- One record of the in-memory `chat_history` list (main.py lines 121-126):
a dict with keys user_message, assistant_message, timestamp, request_id. -/
structure ChatExchange where
  user_message : String
  assistant_message : String
  timestamp : String
  request_id : Option String
deriving DecidableEq, Repr

/-- A raised `HTTPException(status_code, detail)`. -/
structure HTTPException where
  status_code : Nat
  detail : String
deriving DecidableEq, Repr

/-- The fixed fallback string of main.py line 111. -/
def fallbackMessage : String :=
  "I\x27m sorry, I couldn\x27t generate a response. Please try again."

/-- The extraction loop of main.py lines 103-108: scan `response_messages`
in order, and the first entry whose role is "assistant" and whose content is
truthy (non-empty) supplies `assistant_message`; the loop breaks there. If
no entry matches, the initial value `""` survives. -/
def extractAssistant : List Msg → String
  | [] => ""
  | m :: rest =>
      if m.role = "assistant" ∧ m.content ≠ "" then m.content
      else extractAssistant rest

/-- Main.py lines 120-130: `chat_history.append(exchange)` followed by
`if len(chat_history) > 100: chat_history.pop(0)`. `pop(0)` removes the
first (oldest) element, i.e. takes the tail. -/
def appendHistory (chat_history : List ChatExchange) (exchange : ChatExchange) :
    List ChatExchange :=
  let h := chat_history ++ [exchange]
  if h.length > 100 then h.tail else h

/-- The POST /api/chat handler `chat` (main.py lines 83-137).
`query` stands for `query_endpoint`; its arguments mirror the call site:
endpoint name, messages, max_tokens = 400, return_traces = the startup
feedback flag. An exception from the call is the `Except.error` case and is
mapped by the `except` clause to HTTPException 500. `now` is the value of
`datetime.now().isoformat()` at response construction. The handler returns
the HTTP outcome together with the new `chat_history` state. -/
def chat
    (query : String → List Msg → Nat → Bool → Except String (List Msg × Option String))
    (serving_endpoint : String) (endpoint_supports_feedback : Bool)
    (now : String) (message : ChatMessage) (chat_history : List ChatExchange) :
    Except HTTPException ChatResponse × List ChatExchange :=
  let input_messages : List Msg := [⟨"user", message.message⟩]
  match query serving_endpoint input_messages 400 endpoint_supports_feedback with
  | Except.error e =>
      (Except.error ⟨500, "Error processing message: " ++ e⟩, chat_history)
  | Except.ok (response_messages, request_id) =>
      let extracted := extractAssistant response_messages
      let assistant_message := if extracted = "" then fallbackMessage else extracted
      let response : ChatResponse :=
        { message := assistant_message, timestamp := now, request_id := request_id }
      let exchange : ChatExchange :=
        { user_message := message.message
          assistant_message := response.message
          timestamp := response.timestamp
          request_id := response.request_id }
      (Except.ok response, appendHistory chat_history exchange)

/-- Response body of GET /api/chat/history (main.py lines 139-143):
`{"history": chat_history}`, serialized at return time. -/
structure HistoryResponse where
  history : List ChatExchange
deriving DecidableEq, Repr

/-- The GET /api/chat/history handler (main.py lines 139-143). -/
def get_chat_history (chat_history : List ChatExchange) : HistoryResponse :=
  { history := chat_history }

/-- A `{"message": ...}` response body. -/
structure MessageResponse where
  message : String
deriving DecidableEq, Repr

/-- The DELETE /api/chat/history handler (main.py lines 145-151):
reassigns the global list to `[]` and returns the fixed message. -/
def clear_chat_history (_chat_history : List ChatExchange) :
    MessageResponse × List ChatExchange :=
  ({ message := "Chat history cleared" }, [])

/-- An exception value live inside the `try` block of the feedback handler:
either a raised `HTTPException` or any other exception with its description. -/
inductive Exc where
  | http (status_code : Nat) (detail : String)
  | other (description : String)
deriving DecidableEq, Repr

/-- Rendering of Python str(e) for the exceptions of `Exc`: starlette
HTTPException renders as "status_code: detail"; for other exceptions the
description itself. -/
def excStr : Exc → String
  | Exc.http s d => toString s ++ ": " ++ d
  | Exc.other d => d

/-- The `try` block of `submit_chat_feedback` (main.py lines 156-166):
if the startup feedback flag is false, raise HTTPException(400, ...);
otherwise call `submit_feedback(endpoint, request_id, rating)` and on success
return the success message. The second component is the log of
`submit_feedback` calls actually made. -/
def feedback_try_body (endpoint_supports_feedback : Bool) (serving_endpoint : String)
    (submitFb : String → String → Int → Except String Unit)
    (request_id : String) (rating : Int) :
    Except Exc String × List (String × String × Int) :=
  if ¬ endpoint_supports_feedback then
    (Except.error (Exc.http 400 "Feedback not supported by this endpoint"), [])
  else
    match submitFb serving_endpoint request_id rating with
    | Except.ok _ => (Except.ok "Feedback submitted successfully",
        [(serving_endpoint, request_id, rating)])
    | Except.error e => (Except.error (Exc.other e),
        [(serving_endpoint, request_id, rating)])

/-- The POST /api/feedback handler (main.py lines 153-171). The `except
Exception` clause catches EVERY exception of the try block, the raised
`HTTPException(400)` included (FastAPI HTTPException subclasses Exception),
and re-raises HTTPException(500, "Error submitting feedback: " + str(e)). -/
def submit_chat_feedback (endpoint_supports_feedback : Bool) (serving_endpoint : String)
    (submitFb : String → String → Int → Except String Unit)
    (request_id : String) (rating : Int) :
    Except HTTPException String × List (String × String × Int) :=
  match feedback_try_body endpoint_supports_feedback serving_endpoint submitFb
      request_id rating with
  | (Except.ok m, calls) => (Except.ok m, calls)
  | (Except.error e, calls) =>
      (Except.error ⟨500, "Error submitting feedback: " ++ excStr e⟩, calls)

/-- The history states reachable from process start: the store begins empty,
a successful chat appends (with eviction), and the clear endpoint resets it
to empty. GET /api/chat/history does not change the state. -/
inductive Reachable : List ChatExchange → Prop
  | empty : Reachable []
  | chat_success (h : List ChatExchange) (e : ChatExchange) :
      Reachable h → Reachable (appendHistory h e)
  | cleared (h : List ChatExchange) : Reachable h → Reachable []

/-- A store mutation visible to claim C9: an append by a successful chat, or
a clear. -/
inductive HistOp where
  | append (e : ChatExchange)
  | clear
deriving DecidableEq, Repr

/-- Apply one store mutation to a history state. -/
def applyOp (h : List ChatExchange) : HistOp → List ChatExchange
  | HistOp.append e => appendHistory h e
  | HistOp.clear => (clear_chat_history h).2

/-- A sample exchange used by witness theorems. -/
def sampleExchange : ChatExchange :=
  { user_message := "u", assistant_message := "a", timestamp := "t", request_id := none }

-- ### Basic lemmas about the history buffer

lemma appendHistory_eq_drop (h : List ChatExchange) (e : ChatExchange)
    (hle : h.length ≤ 100) :
    appendHistory h e = (h ++ [e]).drop (h.length + 1 - 100) := by
  unfold appendHistory
  by_cases hc : (h ++ [e]).length > 100
  · simp only [hc, if_true]
    have hlen : h.length = 100 := by
      simp only [List.length_append, List.length_singleton] at hc
      omega
    rw [hlen]
    norm_num
  · simp only [hc, if_false]
    have hlen : h.length + 1 ≤ 100 := by
      simp only [List.length_append, List.length_singleton] at hc
      omega
    rw [Nat.sub_eq_zero_of_le hlen, List.drop_zero]

lemma appendHistory_length (h : List ChatExchange) (e : ChatExchange)
    (hle : h.length ≤ 100) :
    (appendHistory h e).length = min (h.length + 1) 100 := by
  rw [appendHistory_eq_drop h e hle, List.length_drop]
  simp only [List.length_append, List.length_singleton]
  omega

lemma reachable_length_le (h : List ChatExchange) (hr : Reachable h) :
    h.length ≤ 100 := by
  induction hr with
  | empty => simp
  | chat_success h e _ ih => rw [appendHistory_length h e ih]; omega
  | cleared h _ _ => simp

lemma foldl_appendHistory (es : List ChatExchange) :
    ∀ h : List ChatExchange, h.length ≤ 100 →
      List.foldl appendHistory h es = (h ++ es).drop (h.length + es.length - 100) := by
  induction es with
  | nil =>
      intro h hle
      simp only [List.foldl_nil, List.append_nil, List.length_nil, Nat.add_zero]
      rw [Nat.sub_eq_zero_of_le hle, List.drop_zero]
  | cons e es ih =>
      intro h hle
      rw [List.foldl_cons]
      have h1le : (appendHistory h e).length ≤ 100 := by
        rw [appendHistory_length h e hle]; omega
      rw [ih (appendHistory h e) h1le]
      rw [appendHistory_length h e hle, appendHistory_eq_drop h e hle]
      have hn : h.length + 1 - 100 ≤ (h ++ [e]).length := by
        simp only [List.length_append, List.length_singleton]; omega
      rw [← List.drop_append_of_le_length hn, List.drop_drop]
      rw [List.append_assoc, List.singleton_append]
      congr 1
      simp only [List.length_cons]
      omega

-- ### Lemmas about the assistant-extraction loop

lemma extractAssistant_eq_empty (msgs : List Msg)
    (hnone : ∀ x ∈ msgs, ¬(x.role = "assistant" ∧ x.content ≠ "")) :
    extractAssistant msgs = "" := by
  induction msgs with
  | nil => rfl
  | cons m rest ih =>
      simp only [extractAssistant]
      rw [if_neg (hnone m (by simp))]
      exact ih (fun x hx => hnone x (by simp [hx]))

lemma extractAssistant_first (pre : List Msg) (m : Msg) (post : List Msg)
    (hpre : ∀ x ∈ pre, ¬(x.role = "assistant" ∧ x.content ≠ ""))
    (hm : m.role = "assistant") (hc : m.content ≠ "") :
    extractAssistant (pre ++ m :: post) = m.content := by
  induction pre with
  | nil =>
      simp only [List.nil_append, extractAssistant]
      rw [if_pos ⟨hm, hc⟩]
  | cons p rest ih =>
      simp only [List.cons_append, extractAssistant]
      rw [if_neg (hpre p (by simp))]
      exact ih (fun x hx => hpre x (by simp [hx]))

-- ### Claim theorems

/-- C1 (code behaviour at the failing input): when the startup feedback flag
is false, POST /api/feedback does NOT surface HTTP 400. The raised
HTTPException(400) is caught by the blanket `except Exception` clause of the
handler and re-raised as HTTP 500 with the wrapped detail string, for every
request_id, rating and submit_feedback behaviour. -/
theorem feedback_unsupported_surfaces_500
    (serving_endpoint request_id : String) (rating : Int)
    (submitFb : String → String → Int → Except String Unit) :
    (submit_chat_feedback false serving_endpoint submitFb request_id rating).1 =
      Except.error
        { status_code := 500,
          detail := "Error submitting feedback: 400: Feedback not supported by this endpoint" } := by
  rfl

/-- C7: when the startup feedback flag is false, POST /api/feedback makes no
external call: the log of submit_feedback invocations is empty for every
request_id, rating and submit_feedback behaviour. -/
theorem feedback_unsupported_no_external_call
    (serving_endpoint request_id : String) (rating : Int)
    (submitFb : String → String → Int → Except String Unit) :
    (submit_chat_feedback false serving_endpoint submitFb request_id rating).2 = [] := by
  rfl

/-- C2: every reachable history state holds at most 100 records; an append
below capacity adds to the end with no eviction, an append at capacity
evicts exactly the oldest record (the head) and appends to the end, and
clearing also respects the bound. Listing does not change the state. -/
theorem history_capacity_invariant (h : List ChatExchange) (hr : Reachable h) :
    h.length ≤ 100 ∧
    (∀ e, (appendHistory h e).length ≤ 100 ∧
      (h.length + 1 ≤ 100 → appendHistory h e = h ++ [e]) ∧
      (100 < h.length + 1 → appendHistory h e = h.tail ++ [e])) ∧
    (clear_chat_history h).2.length ≤ 100 := by
  have hle := reachable_length_le h hr
  refine ⟨hle, fun e => ⟨?_, ?_, ?_⟩, by simp [clear_chat_history]⟩
  · rw [appendHistory_length h e hle]; omega
  · intro hlt
    simp only [appendHistory]
    rw [if_neg (by simp only [List.length_append, List.length_singleton]; omega)]
  · intro hgt
    have hlen : h.length = 100 := by omega
    have hne : h ≠ [] := by
      intro hh; rw [hh] at hlen; simp at hlen
    simp only [appendHistory]
    rw [if_pos (by simp only [List.length_append, List.length_singleton]; omega)]
    rw [List.tail_append_of_ne_nil hne]

theorem history_capacity_invariant_witness :
    (appendHistory [] sampleExchange).length ≤ 100 :=
  ((history_capacity_invariant [] Reachable.empty).2.1 sampleExchange).1

/-- C3: after N successful chat calls starting from the empty store, the
history listing is exactly the last min(N, 100) exchanges in completion
order, oldest first: all of them when N ≤ 100, and only the last 100 (the
oldest N - 100 dropped) when N > 100. -/
theorem history_after_chat_sequence (es : List ChatExchange) :
    (get_chat_history (List.foldl appendHistory [] es)).history
        = es.drop (es.length - 100) ∧
    (get_chat_history (List.foldl appendHistory [] es)).history.length
        = min es.length 100 ∧
    (es.length ≤ 100 →
      (get_chat_history (List.foldl appendHistory [] es)).history = es) := by
  have hfold := foldl_appendHistory es [] (by simp)
  simp only [List.nil_append, List.length_nil, Nat.zero_add] at hfold
  refine ⟨?_, ?_, ?_⟩
  · simp [get_chat_history, hfold]
  · simp only [get_chat_history, hfold, List.length_drop]; omega
  · intro hle
    simp [get_chat_history, hfold, Nat.sub_eq_zero_of_le hle]

theorem history_after_chat_sequence_witness :
    (get_chat_history (List.foldl appendHistory [] [sampleExchange])).history
      = [sampleExchange] :=
  (history_after_chat_sequence [sampleExchange]).2.2 (by decide)

/-- C4: when the inference call returns a message list whose first
assistant-with-non-empty-content entry is `m`, the response carries exactly
the content of `m`, for all later entries (assistant ones included) and all
other inputs. -/
theorem chat_selects_first_assistant
    (serving_endpoint : String) (flag : Bool) (now : String)
    (message : ChatMessage) (hist : List ChatExchange)
    (pre post : List Msg) (m : Msg) (rid : Option String)
    (hpre : ∀ x ∈ pre, ¬(x.role = "assistant" ∧ x.content ≠ ""))
    (hm : m.role = "assistant") (hc : m.content ≠ "") :
    (chat (fun _ _ _ _ => Except.ok (pre ++ m :: post, rid))
        serving_endpoint flag now message hist).1 =
      Except.ok { message := m.content, timestamp := now, request_id := rid } := by
  simp only [chat]
  rw [extractAssistant_first pre m post hpre hm hc, if_neg hc]

theorem chat_selects_first_assistant_witness :
    (chat
        (fun _ _ _ _ => Except.ok
          (([⟨"system", "s"⟩] : List Msg) ++ ⟨"assistant", "hi"⟩ ::
            [⟨"assistant", "later"⟩], some "r1"))
        "ep" false "2024-01-01T00:00:00" { message := "hello", timestamp := none } []).1 =
      Except.ok
        { message := "hi", timestamp := "2024-01-01T00:00:00", request_id := some "r1" } :=
  chat_selects_first_assistant "ep" false "2024-01-01T00:00:00"
    { message := "hello", timestamp := none } [] [⟨"system", "s"⟩]
    [⟨"assistant", "later"⟩] ⟨"assistant", "hi"⟩ (some "r1")
    (by decide) (by decide) (by decide)

/-- C5: when the inference call returns a message list with no assistant
entry of non-empty content, the returned message and the stored
assistant_message are the fixed fallback string verbatim. -/
theorem chat_falls_back_verbatim
    (serving_endpoint : String) (flag : Bool) (now : String)
    (message : ChatMessage) (hist : List ChatExchange)
    (msgs : List Msg) (rid : Option String)
    (hnone : ∀ x ∈ msgs, ¬(x.role = "assistant" ∧ x.content ≠ "")) :
    (chat (fun _ _ _ _ => Except.ok (msgs, rid))
        serving_endpoint flag now message hist).1 =
      Except.ok { message := fallbackMessage, timestamp := now, request_id := rid } ∧
    (chat (fun _ _ _ _ => Except.ok (msgs, rid))
        serving_endpoint flag now message hist).2 =
      appendHistory hist
        { user_message := message.message, assistant_message := fallbackMessage,
          timestamp := now, request_id := rid } := by
  simp only [chat]
  rw [extractAssistant_eq_empty msgs hnone]
  simp

theorem chat_falls_back_verbatim_witness :
    (chat (fun _ _ _ _ => Except.ok (([⟨"assistant", ""⟩, ⟨"user", "x"⟩] : List Msg),
        some "r2")) "ep" true "T" { message := "hello", timestamp := none } []).1 =
      Except.ok { message := fallbackMessage, timestamp := "T", request_id := some "r2" } :=
  (chat_falls_back_verbatim "ep" true "T" { message := "hello", timestamp := none } []
    [⟨"assistant", ""⟩, ⟨"user", "x"⟩] (some "r2") (by decide)).1

/-- C6: when the inference call fails with description `e`, POST /api/chat
returns HTTP 500 with detail "Error processing message: " ++ e and the
history state is returned unchanged: nothing is appended on the failure
path. -/
theorem chat_failure_returns_500_history_unchanged
    (serving_endpoint : String) (flag : Bool) (now : String) (e : String)
    (message : ChatMessage) (hist : List ChatExchange) :
    chat (fun _ _ _ _ => Except.error e) serving_endpoint flag now message hist =
      (Except.error { status_code := 500, detail := "Error processing message: " ++ e },
        hist) := by
  rfl

/-- C8: clearing the history always returns the fixed message, a listing
right after a clear is empty whatever the prior contents, and clearing the
already-empty store leaves the state empty (a no-op on the state). -/
theorem clear_then_list_empty (h : List ChatExchange) :
    (clear_chat_history h).1 = { message := "Chat history cleared" } ∧
    (get_chat_history (clear_chat_history h).2).history = [] ∧
    (clear_chat_history []).2 = [] :=
  ⟨rfl, rfl, rfl⟩

/-- C9: the listing endpoint returns exactly the records present at call
time, and a later mutation of the store (append by a successful chat, or
clear) is not observable through that previously returned value: whenever
the mutation changes the state, the old snapshot differs from the new
state. -/
theorem list_returns_snapshot (h : List ChatExchange) (op : HistOp) :
    (get_chat_history h).history = h ∧
    (applyOp h op ≠ h → (get_chat_history h).history ≠ applyOp h op) :=
  ⟨rfl, fun hne hh => hne hh.symm⟩

theorem list_returns_snapshot_witness :
    (get_chat_history []).history ≠ applyOp [] (HistOp.append sampleExchange) :=
  (list_returns_snapshot [] (HistOp.append sampleExchange)).2 (by decide)

/-- C10: the optional client-supplied timestamp field of the request body is
never read: two chat requests equal in their message text produce the same
HTTP response and the same history state, for every inference behaviour and
clock value; and the timestamp of a successful response is always the
server clock value taken at response construction. -/
theorem chat_independent_of_client_timestamp
    (query : String → List Msg → Nat → Bool → Except String (List Msg × Option String))
    (serving_endpoint : String) (flag : Bool) (now : String)
    (m1 m2 : ChatMessage) (hist : List ChatExchange)
    (hmsg : m1.message = m2.message) :
    chat query serving_endpoint flag now m1 hist =
      chat query serving_endpoint flag now m2 hist ∧
    (∀ resp h2, chat query serving_endpoint flag now m1 hist = (Except.ok resp, h2) →
      resp.timestamp = now) := by
  constructor
  · unfold chat
    rw [hmsg]
  · intro resp h2 heq
    simp only [chat] at heq
    split at heq
    · simp at heq
    · rw [Prod.mk.injEq] at heq
      obtain ⟨h1, _⟩ := heq
      rw [Except.ok.injEq] at h1
      rw [← h1]

theorem chat_independent_of_client_timestamp_witness :
    chat (fun _ _ _ _ => Except.ok (([⟨"assistant", "hi"⟩] : List Msg), some "r1"))
        "ep" true "T" { message := "hello", timestamp := none } [] =
      chat (fun _ _ _ _ => Except.ok (([⟨"assistant", "hi"⟩] : List Msg), some "r1"))
        "ep" true "T" { message := "hello", timestamp := some "2020-01-01" } [] :=
  (chat_independent_of_client_timestamp
    (fun _ _ _ _ => Except.ok (([⟨"assistant", "hi"⟩] : List Msg), some "r1"))
    "ep" true "T" { message := "hello", timestamp := none }
    { message := "hello", timestamp := some "2020-01-01" } [] rfl).1
